import Mathlib

/-!
Shallow embedding of `snapper` (src/snapper.go), a tool that creates
timestamped, hardlink-deduplicated snapshots of a directory tree by invoking
rsync.  The program is a single `main` function; we model the portion after
command-line flag parsing (flag parsing is out of scope) as a pure function
over an abstract filesystem state with explicit fault injection for every
filesystem and subprocess operation that can fail.
-/

namespace Snapper

/-- Constant from the source: behavioral flags passed to rsync for archiving
behavior (src/snapper.go line 21). -/
def rsyncArchiveFlags : String := "-aPh"

/-- Constant from the source: flag to disable copying special files
(src/snapper.go line 25). -/
def rsyncDisableSpecials : String := "--no-specials"

/-- Constant from the source: flag to disable copying device files
(src/snapper.go line 28). -/
def rsyncDisableDevices : String := "--no-devices"

/-- Model of `fmt.Sprintf(rsyncBaseFlagFormat, path)` where
`rsyncBaseFlagFormat = "--link-dest=%s"` (src/snapper.go line 32). -/
def rsyncBaseFlag (path : String) : String := "--link-dest=" ++ path

/-- Model of `fmt.Sprintf(rsyncExcludeFlagFormat, path)` where
`rsyncExcludeFlagFormat = "--exclude=%s"` (src/snapper.go line 36). -/
def rsyncExcludeFlag (path : String) : String := "--exclude=" ++ path

/-- Constant from the source: permissions used for the snapshots root and
individual snapshot roots (src/snapper.go line 40, octal 0700). -/
def snapshotPermissions : Nat := 0o700

/-- Constant from the source: name of the symlink to the latest snapshot
(src/snapper.go line 44). -/
def latestSnapshotLinkName : String := "Latest"

/-- Model of Go's `filepath.Join(a, b)` for the paths this program joins:
both components are non-empty and already clean, so Join reduces to
concatenation with a single separator. -/
def filepathJoin (a b : String) : String := a ++ "/" ++ b

/-- Calendar fields of an instant already converted to UTC, as consumed by
`time.Time.Format` at src/snapper.go line 135.  The conversion from a wall
clock to UTC fields is Go library behavior outside the program. -/
structure DateTime where
  year : Nat
  month : Nat
  day : Nat
  hour : Nat
  minute : Nat
  second : Nat
deriving DecidableEq, Repr

/-- Two-digit zero-padded decimal rendering, as Go's "01"/"02"/"15"/"04"/"05"
format verbs produce for in-range field values; the value is taken modulo
100 (field values from `time.Time` are always in range). -/
def pad2 (n : Nat) : List Char := [Nat.digitChar (n / 10 % 10), Nat.digitChar (n % 10)]

/-- Four-digit zero-padded decimal rendering, as Go's "2006" format verb
produces for years 0..9999; the value is taken modulo 10000. -/
def pad4 (n : Nat) : List Char := pad2 (n / 100) ++ pad2 (n % 100)

/-- Model of `time.Now().UTC().Format("20060102T150405Z")` applied to a
given instant (src/snapper.go line 135): the fields rendered in the fixed
order year, month, day, literal T, hour, minute, second, literal Z. -/
def formatTimestamp (t : DateTime) : String :=
  ⟨pad4 t.year ++ pad2 t.month ++ pad2 t.day ++ ['T'] ++
    pad2 t.hour ++ pad2 t.minute ++ pad2 t.second ++ ['Z']⟩

/-- Model of the trailing-slash normalization at src/snapper.go lines
126-128: `if root[len(root)-1] != '/' { root += "/" }`.  The indexing
operation `root[len(root)-1]` panics in Go when the string is empty; that is
modeled by returning `none`. -/
def normalizeRoot (root : String) : Option String :=
  match root.data.getLast? with
  | none => none
  | some c => some (if c ≠ '/' then root ++ "/" else root)

/-- State of the `Latest` entry inside the snapshots root as observed by
`os.Lstat` (src/snapper.go line 103): absent, a symbolic link with a given
target string, or present but not a symbolic link (a regular file or
directory). -/
inductive LatestEntry
  | absent
  | symlink (target : String)
  | nonSymlink
deriving DecidableEq, Repr

/-- Abstract state of the snapshots root: the `Latest` entry and the names
of the snapshot directories present under it. -/
structure FSState where
  latest : LatestEntry
  dirs : List String
deriving DecidableEq, Repr

/-- Fault injection for each fallible external operation, in program order:
`os.MkdirAll` of the snapshots root, `os.Lstat` of the link failing for a
reason other than non-existence, `os.Mkdir` of the snapshot failing for a
reason other than already-exists, `rsync` exiting non-zero or failing to
start, `os.Remove` of the link failing for a reason other than
non-existence, and `os.Symlink` failing. -/
structure Faults where
  mkdirAllFails : Bool
  lstatOtherError : Bool
  mkdirOtherError : Bool
  rsyncFails : Bool
  removeOtherError : Bool
  symlinkFails : Bool
deriving DecidableEq, Repr

/-- Error kinds of the run, following §7 of the design: `invalidArgument`
for bad CLI input, `storageError` for filesystem operation failures,
`corruptState` when the latest pointer is not a symbolic link,
`transferError` when rsync fails, and `panicked` for a Go runtime panic
(out-of-range string index). -/
inductive ErrKind
  | invalidArgument
  | storageError
  | corruptState
  | transferError
  | panicked
deriving DecidableEq, Repr

/-- Observable outcome of one run: the process exit code, the error kind if
any, the argument list rsync was invoked with (`none` when rsync was never
invoked), the permission bits passed to `os.Mkdir` for the snapshot
directory when that call succeeded, and the final filesystem state. -/
structure RunResult where
  exitCode : Nat
  errKind : Option ErrKind
  rsyncInvocation : Option (List String)
  mkdirPermUsed : Option Nat
  fs : FSState
deriving DecidableEq, Repr

/-- Outcome of an abort (`os.Exit(1)`) before rsync is invoked: the
filesystem state is left as it was. -/
def abortR (k : ErrKind) (fs : FSState) : RunResult :=
  { exitCode := 1, errKind := some k, rsyncInvocation := none,
    mkdirPermUsed := none, fs := fs }

/-- The base rsync arguments created at src/snapper.go line 98:
`[]string{rsyncArchiveFlags, rsyncDisableSpecials, rsyncDisableDevices}`. -/
def initialRsyncArguments : List String :=
  [rsyncArchiveFlags, rsyncDisableSpecials, rsyncDisableDevices]

/-- Continuation of the run after the latest-link inspection (src/snapper.go
lines 116-161): `args1` holds the base rsync arguments plus the hardlink-base
flag when one was found.  Appends the exclusion flags, the normalized root,
allocates the snapshot directory with exclusive-create semantics, appends the
destination, runs rsync, and republishes the `Latest` link. -/
def runAfterInspect (root snapshotsDirectory : String) (excludes : List String)
    (now : DateTime) (fs : FSState) (f : Faults) (args1 : List String) : RunResult :=
  let args2 := args1 ++ excludes.map rsyncExcludeFlag
  match normalizeRoot root with
  | none =>
      { exitCode := 2, errKind := some .panicked, rsyncInvocation := none,
        mkdirPermUsed := none, fs := fs }
  | some normalizedRoot =>
    let args3 := args2 ++ [normalizedRoot]
    let timestamp := formatTimestamp now
    let snapshot := filepathJoin snapshotsDirectory timestamp
    if timestamp ∈ fs.dirs then abortR .storageError fs
    else if f.mkdirOtherError then abortR .storageError fs
    else
      let fs1 : FSState := ⟨fs.latest, timestamp :: fs.dirs⟩
      let args4 := args3 ++ [snapshot]
      if f.rsyncFails then
        { exitCode := 1, errKind := some .transferError, rsyncInvocation := some args4,
          mkdirPermUsed := some snapshotPermissions, fs := fs1 }
      else if f.removeOtherError then
        { exitCode := 1, errKind := some .storageError, rsyncInvocation := some args4,
          mkdirPermUsed := some snapshotPermissions, fs := fs1 }
      else if f.symlinkFails then
        { exitCode := 1, errKind := some .storageError, rsyncInvocation := some args4,
          mkdirPermUsed := some snapshotPermissions, fs := ⟨.absent, fs1.dirs⟩ }
      else
        { exitCode := 0, errKind := none, rsyncInvocation := some args4,
          mkdirPermUsed := some snapshotPermissions, fs := ⟨.symlink timestamp, fs1.dirs⟩ }

/-- Model of one run of `main` after flag parsing (src/snapper.go lines
75-161): validate the two positional arguments, create the snapshots root,
inspect the `Latest` link (aborting with `corruptState` if it exists but is
not a symlink, or `storageError` on any other inspection failure; adding the
hardlink-base flag referencing the link path when it is a symlink), then
continue with `runAfterInspect`. -/
def run (root snapshotsDirectory : String) (excludes : List String)
    (now : DateTime) (fs : FSState) (f : Faults) : RunResult :=
  if root = "" then abortR .invalidArgument fs
  else if snapshotsDirectory = "" then abortR .invalidArgument fs
  else if f.mkdirAllFails then abortR .storageError fs
  else if f.lstatOtherError then abortR .storageError fs
  else
    match fs.latest with
    | .nonSymlink => abortR .corruptState fs
    | .absent =>
        runAfterInspect root snapshotsDirectory excludes now fs f
          initialRsyncArguments
    | .symlink _ =>
        runAfterInspect root snapshotsDirectory excludes now fs f
          (initialRsyncArguments ++
            [rsyncBaseFlag (filepathJoin snapshotsDirectory latestSnapshotLinkName)])

/-- Validity bounds under which the zero-padded rendering of each calendar
field is faithful: the year fits in four decimal digits and every other field
in two.  Fields produced by Go's `time` package always satisfy these. -/
def DateTime.Valid (t : DateTime) : Prop :=
  t.year < 10000 ∧ t.month < 100 ∧ t.day < 100 ∧ t.hour < 100 ∧
    t.minute < 100 ∧ t.second < 100

/-- Chronological order on UTC calendar fields: lexicographic comparison of
the tuple (year, month, day, hour, minute, second). -/
def DateTime.chronoLT (a b : DateTime) : Prop :=
  a.year < b.year ∨ (a.year = b.year ∧ (a.month < b.month ∨ (a.month = b.month ∧
    (a.day < b.day ∨ (a.day = b.day ∧ (a.hour < b.hour ∨ (a.hour = b.hour ∧
      (a.minute < b.minute ∨ (a.minute = b.minute ∧ a.second < b.second)))))))))

instance (t : DateTime) : Decidable t.Valid := by
  unfold DateTime.Valid
  infer_instance

instance (a b : DateTime) : Decidable (a.chronoLT b) := by
  unfold DateTime.chronoLT
  infer_instance

theorem data_ne_nil_of_ne_empty {s : String} (h : s ≠ "") : s.data ≠ [] := by
  intro hd
  apply h
  cases s
  simp_all

set_option maxRecDepth 4000 in
theorem pad2_lt : ∀ m, m < 100 → ∀ n, n < 100 → m < n →
    List.Lex (· < ·) (pad2 m) (pad2 n) := by decide

theorem digitChar_isDigit_of_lt : ∀ m, m < 10 → (Nat.digitChar m).isDigit = true := by
  decide

theorem lex_append_of_length_eq {r : Char → Char → Prop} {l₁ l₂ s₁ s₂ : List Char}
    (h : List.Lex r l₁ l₂) (hlen : l₁.length = l₂.length) :
    List.Lex r (l₁ ++ s₁) (l₂ ++ s₂) := by
  induction h with
  | nil => simp at hlen
  | cons h ih => exact List.Lex.cons (ih (by simpa using hlen))
  | rel h => exact List.Lex.rel h

theorem lex_chain {l₁ l₂ s₁ s₂ : List Char}
    (hlen : l₁.length = l₂.length)
    (h : List.Lex (· < ·) l₁ l₂ ∨ (l₁ = l₂ ∧ List.Lex (· < ·) s₁ s₂)) :
    List.Lex (· < ·) (l₁ ++ s₁) (l₂ ++ s₂) := by
  rcases h with h | ⟨he, hs⟩
  · exact lex_append_of_length_eq h hlen
  · rw [he]
    exact List.Lex.append_left _ hs _

theorem pad4_lt : ∀ m, m < 10000 → ∀ n, n < 10000 → m < n →
    List.Lex (· < ·) (pad4 m) (pad4 n) := by
  intro m hm n hn hmn
  unfold pad4
  rcases Nat.lt_or_ge (m / 100) (n / 100) with h | h
  · exact lex_append_of_length_eq (pad2_lt _ (by omega) _ (by omega) h) rfl
  · have hq : m / 100 = n / 100 :=
      Nat.le_antisymm (Nat.div_le_div_right (Nat.le_of_lt hmn)) h
    rw [hq]
    apply List.Lex.append_left
    apply pad2_lt _ (Nat.mod_lt _ (by norm_num)) _ (Nat.mod_lt _ (by norm_num))
    omega

theorem formatTimestamp_strictMono {a b : DateTime} (ha : a.Valid) (hb : b.Valid)
    (hab : a.chronoLT b) : formatTimestamp a < formatTimestamp b := by
  obtain ⟨hay, ham, had, hah, hai, has⟩ := ha
  obtain ⟨hby, hbm, hbd, hbh, hbi, hbs⟩ := hb
  have key : List.Lex (· < ·) (formatTimestamp a).data (formatTimestamp b).data := by
    simp only [formatTimestamp, List.append_assoc]
    rcases hab with h | ⟨hy, h | ⟨hm, h | ⟨hd, h | ⟨hh, h | ⟨hi, h⟩⟩⟩⟩⟩
    · exact lex_chain rfl (Or.inl (pad4_lt _ hay _ hby h))
    · exact lex_chain rfl (Or.inr ⟨by rw [hy],
        lex_chain rfl (Or.inl (pad2_lt _ ham _ hbm h))⟩)
    · exact lex_chain rfl (Or.inr ⟨by rw [hy],
        lex_chain rfl (Or.inr ⟨by rw [hm],
          lex_chain rfl (Or.inl (pad2_lt _ had _ hbd h))⟩)⟩)
    · exact lex_chain rfl (Or.inr ⟨by rw [hy],
        lex_chain rfl (Or.inr ⟨by rw [hm],
          lex_chain rfl (Or.inr ⟨by rw [hd],
            lex_chain rfl (Or.inr ⟨rfl,
              lex_chain rfl (Or.inl (pad2_lt _ hah _ hbh h))⟩)⟩)⟩)⟩)
    · exact lex_chain rfl (Or.inr ⟨by rw [hy],
        lex_chain rfl (Or.inr ⟨by rw [hm],
          lex_chain rfl (Or.inr ⟨by rw [hd],
            lex_chain rfl (Or.inr ⟨rfl,
              lex_chain rfl (Or.inr ⟨by rw [hh],
                lex_chain rfl (Or.inl (pad2_lt _ hai _ hbi h))⟩)⟩)⟩)⟩)⟩)
    · exact lex_chain rfl (Or.inr ⟨by rw [hy],
        lex_chain rfl (Or.inr ⟨by rw [hm],
          lex_chain rfl (Or.inr ⟨by rw [hd],
            lex_chain rfl (Or.inr ⟨rfl,
              lex_chain rfl (Or.inr ⟨by rw [hh],
                lex_chain rfl (Or.inr ⟨by rw [hi],
                  lex_chain rfl (Or.inl (pad2_lt _ has _ hbs h))⟩)⟩)⟩)⟩)⟩)⟩)
  rw [String.lt_iff_toList_lt]
  exact key

theorem mem_pad2_isDigit {c : Char} {n : Nat} (h : c ∈ pad2 n) : c.isDigit = true := by
  simp only [pad2, List.mem_cons, List.not_mem_nil, or_false] at h
  rcases h with h | h <;> subst h <;>
    exact digitChar_isDigit_of_lt _ (Nat.mod_lt _ (by norm_num))

theorem mem_pad4_isDigit {c : Char} {n : Nat} (h : c ∈ pad4 n) : c.isDigit = true := by
  rcases List.mem_append.mp h with h | h <;> exact mem_pad2_isDigit h

theorem formatTimestamp_chars (t : DateTime) :
    ∀ c ∈ (formatTimestamp t).data, c.isDigit = true ∨ c = 'T' ∨ c = 'Z' := by
  intro c hc
  simp only [formatTimestamp, List.append_assoc] at hc
  rcases List.mem_append.mp hc with h | hc
  · exact Or.inl (mem_pad4_isDigit h)
  rcases List.mem_append.mp hc with h | hc
  · exact Or.inl (mem_pad2_isDigit h)
  rcases List.mem_append.mp hc with h | hc
  · exact Or.inl (mem_pad2_isDigit h)
  rcases List.mem_append.mp hc with h | hc
  · exact Or.inr (Or.inl (List.mem_singleton.mp h))
  rcases List.mem_append.mp hc with h | hc
  · exact Or.inl (mem_pad2_isDigit h)
  rcases List.mem_append.mp hc with h | hc
  · exact Or.inl (mem_pad2_isDigit h)
  rcases List.mem_append.mp hc with h | hc
  · exact Or.inl (mem_pad2_isDigit h)
  · exact Or.inr (Or.inr (List.mem_singleton.mp hc))

theorem formatTimestamp_length (t : DateTime) : (formatTimestamp t).length = 16 := rfl

/-- C7: for every non-empty source-root string, normalization yields a
string ending in the path separator, appending one exactly when it is
missing, leaving a root already ending in the separator unchanged, and
acting idempotently. -/
theorem normalizeRoot_spec (s : String) (h : s ≠ "") :
    ∃ r, normalizeRoot s = some r ∧ r.data.getLast? = some '/' ∧
      (s.data.getLast? = some '/' → r = s) ∧
      (s.data.getLast? ≠ some '/' → r = s ++ "/") ∧
      normalizeRoot r = some r := by
  have hd : s.data ≠ [] := data_ne_nil_of_ne_empty h
  rcases hlast : s.data.getLast? with _ | c
  · exact absurd (List.getLast?_eq_none_iff.mp hlast) hd
  by_cases hc : c = '/'
  · subst hc
    refine ⟨s, ?_, hlast, fun _ => rfl, fun hne => absurd rfl hne, ?_⟩
    · simp [normalizeRoot, hlast]
    · simp [normalizeRoot, hlast]
  · refine ⟨s ++ "/", ?_, ?_, ?_, fun _ => rfl, ?_⟩
    · simp [normalizeRoot, hlast, hc]
    · rw [String.data_append]
      exact List.getLast?_concat _
    · intro heq
      exact absurd (Option.some.inj heq) hc
    · have hr : (s ++ "/").data.getLast? = some '/' := by
        rw [String.data_append]
        exact List.getLast?_concat _
      simp [normalizeRoot, hr]


theorem normalizeRoot_eq_none_iff (s : String) : normalizeRoot s = none ↔ s = "" := by
  constructor
  · intro h
    unfold normalizeRoot at h
    rcases hl : s.data.getLast? with _ | c
    · have hnil := List.getLast?_eq_none_iff.mp hl
      cases s
      simp_all
    · rw [hl] at h
      simp at h
  · intro h
    subst h
    rfl

theorem normalizeRoot_isSome_of_ne {s : String} (h : s ≠ "") :
    ∃ r, normalizeRoot s = some r := by
  rcases hn : normalizeRoot s with _ | r
  · exact absurd ((normalizeRoot_eq_none_iff s).mp hn) h
  · exact ⟨r, rfl⟩

theorem run_abort_or_inspect (root snaps : String) (excl : List String)
    (now : DateTime) (fs : FSState) (f : Faults) :
    (∃ k, run root snaps excl now fs f = abortR k fs ∧
      k ≠ .transferError ∧ k ≠ .panicked) ∨
    (root ≠ "" ∧ ∃ args1, run root snaps excl now fs f =
        runAfterInspect root snaps excl now fs f args1 ∧
      ((args1 = initialRsyncArguments ∧ fs.latest = .absent) ∨
       (args1 = initialRsyncArguments ++
          [rsyncBaseFlag (filepathJoin snaps latestSnapshotLinkName)] ∧
        ∃ t, fs.latest = .symlink t))) := by
  by_cases h1 : root = ""
  · exact Or.inl ⟨.invalidArgument, by simp [run, h1], by decide, by decide⟩
  by_cases h2 : snaps = ""
  · exact Or.inl ⟨.invalidArgument, by simp [run, h1, h2], by decide, by decide⟩
  by_cases h3 : f.mkdirAllFails = true
  · exact Or.inl ⟨.storageError, by simp [run, h1, h2, h3], by decide, by decide⟩
  by_cases h4 : f.lstatOtherError = true
  · exact Or.inl ⟨.storageError, by simp [run, h1, h2, h3, h4], by decide, by decide⟩
  rcases hlat : fs.latest with _ | t | _
  · exact Or.inr ⟨h1, initialRsyncArguments,
      by simp [run, h1, h2, h3, h4, hlat], Or.inl ⟨rfl, rfl⟩⟩
  · exact Or.inr ⟨h1, _,
      by simp [run, h1, h2, h3, h4, hlat], Or.inr ⟨rfl, t, rfl⟩⟩
  · exact Or.inl ⟨.corruptState, by simp [run, h1, h2, h3, h4, hlat], by decide, by decide⟩

theorem runAfterInspect_panic (root snaps : String) (excl : List String)
    (now : DateTime) (fs : FSState) (f : Faults) (args1 : List String)
    (h : (runAfterInspect root snaps excl now fs f args1).errKind = some .panicked) :
    normalizeRoot root = none := by
  unfold runAfterInspect at h
  split at h
  · assumption
  · repeat' split at h
    all_goals simp_all [abortR, apply_ite RunResult.errKind, ite_eq_iff]

theorem runAfterInspect_invocation_inv (root snaps : String) (excl : List String)
    (now : DateTime) (fs : FSState) (f : Faults) (args1 args : List String)
    (hinv : (runAfterInspect root snaps excl now fs f args1).rsyncInvocation = some args) :
    ∃ r, normalizeRoot root = some r ∧ formatTimestamp now ∉ fs.dirs ∧
      f.mkdirOtherError = false ∧
      args = args1 ++ (excl.map rsyncExcludeFlag ++
        [r, filepathJoin snaps (formatTimestamp now)]) := by
  unfold runAfterInspect at hinv
  split at hinv
  · simp at hinv
  · next r heq =>
    refine ⟨r, heq, ?_⟩
    by_cases hd : formatTimestamp now ∈ fs.dirs
    · rw [if_pos hd] at hinv
      simp [abortR] at hinv
    rw [if_neg hd] at hinv
    by_cases hm : f.mkdirOtherError = true
    · rw [if_pos hm] at hinv
      simp [abortR] at hinv
    rw [if_neg hm] at hinv
    refine ⟨hd, by simpa using hm, ?_⟩
    repeat' split at hinv
    all_goals
      simp at hinv
      subst hinv
      simp

theorem runAfterInspect_rsync_fail (root snaps : String) (excl : List String)
    (now : DateTime) (fs : FSState) (f : Faults) (args1 args : List String)
    (hinv : (runAfterInspect root snaps excl now fs f args1).rsyncInvocation = some args)
    (hfail : f.rsyncFails = true) :
    runAfterInspect root snaps excl now fs f args1 =
      { exitCode := 1, errKind := some .transferError,
        rsyncInvocation := some args, mkdirPermUsed := some snapshotPermissions,
        fs := ⟨fs.latest, formatTimestamp now :: fs.dirs⟩ } := by
  obtain ⟨r, hnr, hd, hm, hargs⟩ :=
    runAfterInspect_invocation_inv root snaps excl now fs f args1 args hinv
  subst hargs
  unfold runAfterInspect
  rw [hnr]
  simp [hd, hm, hfail]

theorem runAfterInspect_publish (root snaps : String) (excl : List String)
    (now : DateTime) (fs : FSState) (f : Faults) (args1 args : List String)
    (hinv : (runAfterInspect root snaps excl now fs f args1).rsyncInvocation = some args)
    (hok : f.rsyncFails = false) :
    (f.removeOtherError = true → runAfterInspect root snaps excl now fs f args1 =
      { exitCode := 1, errKind := some .storageError,
        rsyncInvocation := some args, mkdirPermUsed := some snapshotPermissions,
        fs := ⟨fs.latest, formatTimestamp now :: fs.dirs⟩ }) ∧
    (f.removeOtherError = false → f.symlinkFails = true →
      runAfterInspect root snaps excl now fs f args1 =
      { exitCode := 1, errKind := some .storageError,
        rsyncInvocation := some args, mkdirPermUsed := some snapshotPermissions,
        fs := ⟨.absent, formatTimestamp now :: fs.dirs⟩ }) ∧
    (f.removeOtherError = false → f.symlinkFails = false →
      runAfterInspect root snaps excl now fs f args1 =
      { exitCode := 0, errKind := none,
        rsyncInvocation := some args, mkdirPermUsed := some snapshotPermissions,
        fs := ⟨.symlink (formatTimestamp now), formatTimestamp now :: fs.dirs⟩ }) := by
  obtain ⟨r, hnr, hd, hm, hargs⟩ :=
    runAfterInspect_invocation_inv root snaps excl now fs f args1 args hinv
  subst hargs
  refine ⟨fun hrm => ?_, fun hrm hsl => ?_, fun hrm hsl => ?_⟩ <;>
    (unfold runAfterInspect
     rw [hnr]
     simp [hd, hm, hok, hrm])
  · simp [hsl]
  · simp [hsl]

theorem runAfterInspect_mkdir_exists (root snaps : String) (excl : List String)
    (now : DateTime) (fs : FSState) (f : Faults) (args1 : List String) (r : String)
    (hnr : normalizeRoot root = some r)
    (hd : formatTimestamp now ∈ fs.dirs) :
    runAfterInspect root snaps excl now fs f args1 = abortR .storageError fs := by
  unfold runAfterInspect
  rw [hnr]
  simp [hd]

theorem runAfterInspect_latest_independent (root snaps : String) (excl : List String)
    (now : DateTime) (f : Faults) (args1 : List String) (dirs : List String)
    (lat1 lat2 : LatestEntry) :
    ((runAfterInspect root snaps excl now ⟨lat1, dirs⟩ f args1).rsyncInvocation =
      (runAfterInspect root snaps excl now ⟨lat2, dirs⟩ f args1).rsyncInvocation) ∧
    ((runAfterInspect root snaps excl now ⟨lat1, dirs⟩ f args1).errKind =
      (runAfterInspect root snaps excl now ⟨lat2, dirs⟩ f args1).errKind) ∧
    ((runAfterInspect root snaps excl now ⟨lat1, dirs⟩ f args1).exitCode =
      (runAfterInspect root snaps excl now ⟨lat2, dirs⟩ f args1).exitCode) := by
  rcases hnr : normalizeRoot root with _ | r
  · simp [runAfterInspect, hnr]
  · by_cases hd : formatTimestamp now ∈ dirs
    · simp [runAfterInspect, abortR, hnr, hd]
    · by_cases hm : f.mkdirOtherError = true <;>
      by_cases hr : f.rsyncFails = true <;>
      by_cases hrm : f.removeOtherError = true <;>
      by_cases hsl : f.symlinkFails = true <;>
      simp [runAfterInspect, abortR, hnr, hd, hm, hr, hrm, hsl]

theorem runAfterInspect_errKinds (root snaps : String) (excl : List String)
    (now : DateTime) (fs : FSState) (f : Faults) (args1 : List String) (r : String)
    (hnr : normalizeRoot root = some r) :
    (runAfterInspect root snaps excl now fs f args1).errKind ∈
      [none, some .storageError, some .transferError] := by
  unfold runAfterInspect
  rw [hnr]
  by_cases hd : formatTimestamp now ∈ fs.dirs <;>
  by_cases hm : f.mkdirOtherError = true <;>
  by_cases hr : f.rsyncFails = true <;>
  by_cases hrm : f.removeOtherError = true <;>
  by_cases hsl : f.symlinkFails = true <;>
  simp [abortR, hd, hm, hr, hrm, hsl]


/-- C1: for every run in which rsync is invoked and exits non-zero, the run
aborts with TransferError and a non-zero exit; the Latest pointer is left
exactly as it was before the run and the newly allocated snapshot directory
remains on disk. -/
theorem transfer_failure_aborts_preserving_state (root snaps : String)
    (excl : List String) (now : DateTime) (fs : FSState) (f : Faults)
    (args : List String)
    (hinv : (run root snaps excl now fs f).rsyncInvocation = some args)
    (hfail : f.rsyncFails = true) :
    (run root snaps excl now fs f).errKind = some .transferError ∧
    (run root snaps excl now fs f).exitCode ≠ 0 ∧
    (run root snaps excl now fs f).fs.latest = fs.latest ∧
    formatTimestamp now ∈ (run root snaps excl now fs f).fs.dirs := by
  rcases run_abort_or_inspect root snaps excl now fs f with ⟨k, heq, hk, _⟩ | ⟨_, a1, heq, _⟩
  · rw [heq] at hinv
    simp [abortR] at hinv
  · rw [heq] at hinv ⊢
    rw [runAfterInspect_rsync_fail root snaps excl now fs f a1 args hinv hfail]
    exact ⟨rfl, by simp, rfl, List.mem_cons_self _ _⟩

/-- Witness for C1 at a concrete run with a failing transfer. -/
theorem transfer_failure_witness :
    (run "/data" "/snaps" [] ⟨2020, 1, 2, 3, 4, 5⟩ ⟨.symlink "p", ["p"]⟩
        ⟨false, false, false, true, false, false⟩).errKind = some .transferError ∧
    (run "/data" "/snaps" [] ⟨2020, 1, 2, 3, 4, 5⟩ ⟨.symlink "p", ["p"]⟩
        ⟨false, false, false, true, false, false⟩).exitCode ≠ 0 ∧
    (run "/data" "/snaps" [] ⟨2020, 1, 2, 3, 4, 5⟩ ⟨.symlink "p", ["p"]⟩
        ⟨false, false, false, true, false, false⟩).fs.latest = .symlink "p" ∧
    formatTimestamp ⟨2020, 1, 2, 3, 4, 5⟩ ∈
      (run "/data" "/snaps" [] ⟨2020, 1, 2, 3, 4, 5⟩ ⟨.symlink "p", ["p"]⟩
        ⟨false, false, false, true, false, false⟩).fs.dirs :=
  transfer_failure_aborts_preserving_state "/data" "/snaps" []
    ⟨2020, 1, 2, 3, 4, 5⟩ ⟨.symlink "p", ["p"]⟩
    ⟨false, false, false, true, false, false⟩
    ["-aPh", "--no-specials", "--no-devices", "--link-dest=/snaps/Latest",
      "/data/", "/snaps/20200102T030405Z"] (by decide) rfl

/-- C2: for every run in which the Latest entry exists but is not a symbolic
link, the run fails with CorruptState and aborts before any transfer
invocation and before any snapshot directory is created. -/
theorem latest_not_symlink_corrupt_state (root snaps : String) (excl : List String)
    (now : DateTime) (fs : FSState) (f : Faults)
    (hroot : root ≠ "") (hsnaps : snaps ≠ "")
    (hmk : f.mkdirAllFails = false) (hlstat : f.lstatOtherError = false)
    (hlat : fs.latest = .nonSymlink) :
    (run root snaps excl now fs f).errKind = some .corruptState ∧
    (run root snaps excl now fs f).rsyncInvocation = none ∧
    (run root snaps excl now fs f).fs = fs ∧
    (run root snaps excl now fs f).exitCode = 1 := by
  simp [run, abortR, hroot, hsnaps, hmk, hlstat, hlat]

/-- Witness for C2 at a concrete run whose Latest entry is a regular file. -/
theorem latest_not_symlink_witness :
    (run "/data" "/snaps" [] ⟨2020, 1, 2, 3, 4, 5⟩ ⟨.nonSymlink, []⟩
        ⟨false, false, false, false, false, false⟩).errKind = some .corruptState ∧
    (run "/data" "/snaps" [] ⟨2020, 1, 2, 3, 4, 5⟩ ⟨.nonSymlink, []⟩
        ⟨false, false, false, false, false, false⟩).rsyncInvocation = none ∧
    (run "/data" "/snaps" [] ⟨2020, 1, 2, 3, 4, 5⟩ ⟨.nonSymlink, []⟩
        ⟨false, false, false, false, false, false⟩).fs = ⟨.nonSymlink, []⟩ ∧
    (run "/data" "/snaps" [] ⟨2020, 1, 2, 3, 4, 5⟩ ⟨.nonSymlink, []⟩
        ⟨false, false, false, false, false, false⟩).exitCode = 1 :=
  latest_not_symlink_corrupt_state "/data" "/snaps" [] ⟨2020, 1, 2, 3, 4, 5⟩
    ⟨.nonSymlink, []⟩ ⟨false, false, false, false, false, false⟩
    (by decide) (by decide) rfl rfl rfl

/-- C10: the trailing-separator normalization indexes the last byte of the
source-root string; the run never reaches that indexing with an empty string
(the empty root aborts first), so no run ends in the panicked state: every
run's error kind is one of the ordinary outcomes. -/
theorem run_never_panics (root snaps : String) (excl : List String)
    (now : DateTime) (fs : FSState) (f : Faults) :
    (run root snaps excl now fs f).errKind ∈
      [none, some .invalidArgument, some .storageError, some .corruptState,
        some .transferError] := by
  rcases run_abort_or_inspect root snaps excl now fs f with ⟨k, heq, _, hk⟩ | ⟨hroot, a1, heq, _⟩
  · rw [heq]
    cases k <;> simp [abortR] at hk ⊢
  · rw [heq]
    obtain ⟨r, hnr⟩ := normalizeRoot_isSome_of_ne hroot
    have hmem := runAfterInspect_errKinds root snaps excl now fs f a1 r hnr
    simp only [List.mem_cons, List.not_mem_nil, or_false] at hmem ⊢
    tauto


/-- C5: the snapshot directory is created with exclusive-create semantics and
owner-only permissions: if the computed timestamp name already exists,
creation fails with StorageError and the run aborts with no transfer
attempted and no pointer update; otherwise the creation uses the 0700
permission constant, whose group and other bits are clear. -/
theorem exclusive_snapshot_create (root snaps : String) (excl : List String)
    (now : DateTime) (fs : FSState) (f : Faults)
    (hroot : root ≠ "") (hsnaps : snaps ≠ "")
    (hmk : f.mkdirAllFails = false) (hlstat : f.lstatOtherError = false)
    (hlat : fs.latest ≠ .nonSymlink) :
    (formatTimestamp now ∈ fs.dirs →
      (run root snaps excl now fs f).errKind = some .storageError ∧
      (run root snaps excl now fs f).rsyncInvocation = none ∧
      (run root snaps excl now fs f).fs = fs ∧
      (run root snaps excl now fs f).exitCode = 1) ∧
    (formatTimestamp now ∉ fs.dirs → f.mkdirOtherError = false →
      (run root snaps excl now fs f).mkdirPermUsed = some snapshotPermissions) ∧
    snapshotPermissions = 0o700 ∧ snapshotPermissions &&& 0o077 = 0 := by
  obtain ⟨r, hnr⟩ := normalizeRoot_isSome_of_ne hroot
  have hrun : ∃ a1, run root snaps excl now fs f =
      runAfterInspect root snaps excl now fs f a1 := by
    rcases hl : fs.latest with _ | t | _
    · exact ⟨initialRsyncArguments, by simp [run, hroot, hsnaps, hmk, hlstat, hl]⟩
    · exact ⟨initialRsyncArguments ++
        [rsyncBaseFlag (filepathJoin snaps latestSnapshotLinkName)],
        by simp [run, hroot, hsnaps, hmk, hlstat, hl]⟩
    · exact absurd hl hlat
  obtain ⟨a1, hrun⟩ := hrun
  rw [hrun]
  refine ⟨fun hdup => ?_, fun hdup hm => ?_, rfl, by decide⟩
  · rw [runAfterInspect_mkdir_exists root snaps excl now fs f a1 r hnr hdup]
    exact ⟨rfl, rfl, rfl, rfl⟩
  · unfold runAfterInspect
    rw [hnr]
    by_cases hr : f.rsyncFails = true <;>
    by_cases hrm : f.removeOtherError = true <;>
    by_cases hsl : f.symlinkFails = true <;>
    simp [abortR, hdup, hm, hr, hrm, hsl]

/-- Witness for C5 at a concrete run whose timestamp directory already
exists. -/
theorem exclusive_snapshot_create_witness :
    ((formatTimestamp ⟨2020, 1, 2, 3, 4, 5⟩ ∈ ["20200102T030405Z"] →
      (run "/data" "/snaps" [] ⟨2020, 1, 2, 3, 4, 5⟩ ⟨.absent, ["20200102T030405Z"]⟩
          ⟨false, false, false, false, false, false⟩).errKind = some .storageError ∧
      (run "/data" "/snaps" [] ⟨2020, 1, 2, 3, 4, 5⟩ ⟨.absent, ["20200102T030405Z"]⟩
          ⟨false, false, false, false, false, false⟩).rsyncInvocation = none ∧
      (run "/data" "/snaps" [] ⟨2020, 1, 2, 3, 4, 5⟩ ⟨.absent, ["20200102T030405Z"]⟩
          ⟨false, false, false, false, false, false⟩).fs = ⟨.absent, ["20200102T030405Z"]⟩ ∧
      (run "/data" "/snaps" [] ⟨2020, 1, 2, 3, 4, 5⟩ ⟨.absent, ["20200102T030405Z"]⟩
          ⟨false, false, false, false, false, false⟩).exitCode = 1) ∧
    (formatTimestamp ⟨2020, 1, 2, 3, 4, 5⟩ ∉ ["20200102T030405Z"] → false = false →
      (run "/data" "/snaps" [] ⟨2020, 1, 2, 3, 4, 5⟩ ⟨.absent, ["20200102T030405Z"]⟩
          ⟨false, false, false, false, false, false⟩).mkdirPermUsed = some snapshotPermissions) ∧
    snapshotPermissions = 0o700 ∧ snapshotPermissions &&& 0o077 = 0) ∧
    formatTimestamp ⟨2020, 1, 2, 3, 4, 5⟩ ∈ ["20200102T030405Z"] :=
  ⟨exclusive_snapshot_create "/data" "/snaps" [] ⟨2020, 1, 2, 3, 4, 5⟩
    ⟨.absent, ["20200102T030405Z"]⟩ ⟨false, false, false, false, false, false⟩
    (by decide) (by decide) rfl rfl (by decide), by decide⟩

/-- C6: for every run that reaches publishing (rsync was invoked and
succeeded), the publisher first removes the existing Latest link (failing
with StorageError on a removal failure other than non-existence, and leaving
no link when the subsequent symlink creation fails), then creates a Latest
link whose target is the new snapshot's bare identifier, which contains no
path separator (a relative name, not an absolute path). -/
theorem publisher_replaces_latest (root snaps : String) (excl : List String)
    (now : DateTime) (fs : FSState) (f : Faults) (args : List String)
    (hinv : (run root snaps excl now fs f).rsyncInvocation = some args)
    (hok : f.rsyncFails = false) :
    (f.removeOtherError = true →
      (run root snaps excl now fs f).errKind = some .storageError ∧
      (run root snaps excl now fs f).fs.latest = fs.latest) ∧
    (f.removeOtherError = false → f.symlinkFails = true →
      (run root snaps excl now fs f).errKind = some .storageError ∧
      (run root snaps excl now fs f).fs.latest = .absent) ∧
    (f.removeOtherError = false → f.symlinkFails = false →
      (run root snaps excl now fs f).errKind = none ∧
      (run root snaps excl now fs f).exitCode = 0 ∧
      (run root snaps excl now fs f).fs.latest = .symlink (formatTimestamp now) ∧
      '/' ∉ (formatTimestamp now).data) := by
  rcases run_abort_or_inspect root snaps excl now fs f with ⟨k, heq, _, _⟩ | ⟨_, a1, heq, _⟩
  · rw [heq] at hinv
    simp [abortR] at hinv
  · rw [heq] at hinv ⊢
    obtain ⟨h1, h2, h3⟩ :=
      runAfterInspect_publish root snaps excl now fs f a1 args hinv hok
    refine ⟨fun hrm => ?_, fun hrm hsl => ?_, fun hrm hsl => ?_⟩
    · rw [h1 hrm]
      exact ⟨rfl, rfl⟩
    · rw [h2 hrm hsl]
      exact ⟨rfl, rfl⟩
    · rw [h3 hrm hsl]
      refine ⟨rfl, rfl, rfl, ?_⟩
      intro hmem
      rcases formatTimestamp_chars now '/' hmem with h | h | h <;>
        exact absurd h (by decide)

/-- Witness for C6 at a concrete successful run. -/
theorem publisher_replaces_latest_witness :
    ((false : Bool) = true →
      (run "/data" "/snaps" [] ⟨2020, 1, 2, 3, 4, 5⟩ ⟨.symlink "p", []⟩
          ⟨false, false, false, false, false, false⟩).errKind = some .storageError ∧
      (run "/data" "/snaps" [] ⟨2020, 1, 2, 3, 4, 5⟩ ⟨.symlink "p", []⟩
          ⟨false, false, false, false, false, false⟩).fs.latest = .symlink "p") ∧
    ((false : Bool) = false → (false : Bool) = true →
      (run "/data" "/snaps" [] ⟨2020, 1, 2, 3, 4, 5⟩ ⟨.symlink "p", []⟩
          ⟨false, false, false, false, false, false⟩).errKind = some .storageError ∧
      (run "/data" "/snaps" [] ⟨2020, 1, 2, 3, 4, 5⟩ ⟨.symlink "p", []⟩
          ⟨false, false, false, false, false, false⟩).fs.latest = .absent) ∧
    ((false : Bool) = false → (false : Bool) = false →
      (run "/data" "/snaps" [] ⟨2020, 1, 2, 3, 4, 5⟩ ⟨.symlink "p", []⟩
          ⟨false, false, false, false, false, false⟩).errKind = none ∧
      (run "/data" "/snaps" [] ⟨2020, 1, 2, 3, 4, 5⟩ ⟨.symlink "p", []⟩
          ⟨false, false, false, false, false, false⟩).exitCode = 0 ∧
      (run "/data" "/snaps" [] ⟨2020, 1, 2, 3, 4, 5⟩ ⟨.symlink "p", []⟩
          ⟨false, false, false, false, false, false⟩).fs.latest =
        .symlink (formatTimestamp ⟨2020, 1, 2, 3, 4, 5⟩) ∧
      '/' ∉ (formatTimestamp ⟨2020, 1, 2, 3, 4, 5⟩).data) :=
  publisher_replaces_latest "/data" "/snaps" [] ⟨2020, 1, 2, 3, 4, 5⟩
    ⟨.symlink "p", []⟩ ⟨false, false, false, false, false, false⟩
    ["-aPh", "--no-specials", "--no-devices", "--link-dest=/snaps/Latest",
      "/data/", "/snaps/20200102T030405Z"] (by decide) rfl


/-- C4: every rsync invocation's argument list is exactly, in order: the
fixed prefix (archive flags, special-file suppression, device-file
suppression), then the hardlink-base flag when a valid Latest link existed,
then one exclusion flag per supplied exclusion path in the supplied order,
then the normalized source path, then the destination snapshot path last. -/
theorem argument_list_structure (root snaps : String) (excl : List String)
    (now : DateTime) (fs : FSState) (f : Faults) (args : List String)
    (hinv : (run root snaps excl now fs f).rsyncInvocation = some args) :
    ∃ r, normalizeRoot root = some r ∧
      ((fs.latest = .absent ∧
        args = initialRsyncArguments ++ excl.map rsyncExcludeFlag ++
          [r, filepathJoin snaps (formatTimestamp now)]) ∨
       (∃ t, fs.latest = .symlink t ∧
        args = initialRsyncArguments ++
          [rsyncBaseFlag (filepathJoin snaps latestSnapshotLinkName)] ++
          excl.map rsyncExcludeFlag ++
          [r, filepathJoin snaps (formatTimestamp now)])) := by
  rcases run_abort_or_inspect root snaps excl now fs f with ⟨k, heq, _, _⟩ | ⟨_, a1, heq, hcase⟩
  · rw [heq] at hinv
    simp [abortR] at hinv
  · rw [heq] at hinv
    obtain ⟨r, hnr, _, _, hargs⟩ :=
      runAfterInspect_invocation_inv root snaps excl now fs f a1 args hinv
    refine ⟨r, hnr, ?_⟩
    rcases hcase with ⟨ha1, hlat⟩ | ⟨ha1, t, hlat⟩
    · subst ha1
      exact Or.inl ⟨hlat, by simp [hargs]⟩
    · subst ha1
      exact Or.inr ⟨t, hlat, by simp [hargs]⟩

/-- Witness for C4 at a concrete run with two exclusions and an existing
Latest link. -/
theorem argument_list_structure_witness :
    ∃ r, normalizeRoot "/data" = some r ∧
      (((LatestEntry.symlink "p" : LatestEntry) = .absent ∧
        ["-aPh", "--no-specials", "--no-devices", "--link-dest=/snaps/Latest",
          "--exclude=a", "--exclude=b/c", "/data/", "/snaps/20200102T030405Z"] =
          initialRsyncArguments ++ ["a", "b/c"].map rsyncExcludeFlag ++
          [r, filepathJoin "/snaps" (formatTimestamp ⟨2020, 1, 2, 3, 4, 5⟩)]) ∨
       (∃ t, (LatestEntry.symlink "p" : LatestEntry) = .symlink t ∧
        ["-aPh", "--no-specials", "--no-devices", "--link-dest=/snaps/Latest",
          "--exclude=a", "--exclude=b/c", "/data/", "/snaps/20200102T030405Z"] =
          initialRsyncArguments ++
          [rsyncBaseFlag (filepathJoin "/snaps" latestSnapshotLinkName)] ++
          ["a", "b/c"].map rsyncExcludeFlag ++
          [r, filepathJoin "/snaps" (formatTimestamp ⟨2020, 1, 2, 3, 4, 5⟩)])) := by
  have h := argument_list_structure "/data" "/snaps" ["a", "b/c"]
    ⟨2020, 1, 2, 3, 4, 5⟩ ⟨.symlink "p", []⟩ ⟨false, false, false, false, false, false⟩
    ["-aPh", "--no-specials", "--no-devices", "--link-dest=/snaps/Latest",
      "--exclude=a", "--exclude=b/c", "/data/", "/snaps/20200102T030405Z"] (by decide)
  exact h

theorem excludeFlag_data (p : String) :
    (rsyncExcludeFlag p).data =
      '-' :: '-' :: 'e' :: 'x' :: 'c' :: 'l' :: 'u' :: 'd' :: 'e' :: '=' :: p.data := by
  unfold rsyncExcludeFlag
  rw [String.data_append]
  rfl

theorem baseFlag_data (p : String) :
    (rsyncBaseFlag p).data =
      '-' :: '-' :: 'l' :: 'i' :: 'n' :: 'k' :: '-' :: 'd' :: 'e' :: 's' :: 't' :: '=' ::
        p.data := by
  unfold rsyncBaseFlag
  rw [String.data_append]
  rfl

theorem baseFlag_notMem_flags (p : String) (excl : List String) :
    rsyncBaseFlag p ∉ initialRsyncArguments ++ excl.map rsyncExcludeFlag := by
  intro hmem
  rcases List.mem_append.mp hmem with h | h
  · simp only [initialRsyncArguments, rsyncArchiveFlags, rsyncDisableSpecials,
      rsyncDisableDevices, List.mem_cons, List.not_mem_nil, or_false] at h
    rcases h with h | h | h <;>
      (have hd := congrArg String.data h
       rw [baseFlag_data] at hd
       simp at hd)
  · obtain ⟨q, _, hq⟩ := List.mem_map.mp h
    have hd := congrArg String.data hq
    rw [excludeFlag_data, baseFlag_data] at hd
    simp at hd


/-- C3 (amended): the built argument list contains the hardlink-base flag if
and only if a valid Latest symbolic link existed before the run; when it
exists the flag references the Latest link's own path, and when no prior
Latest pointer exists no hardlink-base flag is inserted (neither the fixed
prefix nor any exclusion flag can coincide with a base flag). -/
theorem hardlink_base_flag_iff (root snaps : String) (excl : List String)
    (now : DateTime) (fs : FSState) (f : Faults) (args : List String)
    (hinv : (run root snaps excl now fs f).rsyncInvocation = some args) :
    ((∃ t, fs.latest = .symlink t) →
      rsyncBaseFlag (filepathJoin snaps latestSnapshotLinkName) ∈ args) ∧
    (fs.latest = .absent → ∃ r, normalizeRoot root = some r ∧
      args = initialRsyncArguments ++ excl.map rsyncExcludeFlag ++
        [r, filepathJoin snaps (formatTimestamp now)] ∧
      ∀ p, rsyncBaseFlag p ∉ initialRsyncArguments ++ excl.map rsyncExcludeFlag) := by
  rcases run_abort_or_inspect root snaps excl now fs f with ⟨k, heq, _, _⟩ | ⟨_, a1, heq, hcase⟩
  · rw [heq] at hinv
    simp [abortR] at hinv
  · rw [heq] at hinv
    obtain ⟨r, hnr, _, _, hargs⟩ :=
      runAfterInspect_invocation_inv root snaps excl now fs f a1 args hinv
    refine ⟨fun ⟨t, ht⟩ => ?_, fun habs => ?_⟩
    · rcases hcase with ⟨ha1, hlat⟩ | ⟨ha1, t', hlat⟩
      · rw [ht] at hlat
        simp at hlat
      · subst ha1
        rw [hargs]
        simp
    · rcases hcase with ⟨ha1, hlat⟩ | ⟨ha1, t', hlat⟩
      · subst ha1
        exact ⟨r, hnr, by simp [hargs], fun p => baseFlag_notMem_flags p excl⟩
      · rw [habs] at hlat
        simp at hlat

/-- Witness for C3 at a concrete run with an existing Latest link. -/
theorem hardlink_base_flag_witness :
    ((∃ t, (FSState.mk (.symlink "p") []).latest = .symlink t) →
      rsyncBaseFlag (filepathJoin "/snaps" latestSnapshotLinkName) ∈
        ["-aPh", "--no-specials", "--no-devices", "--link-dest=/snaps/Latest",
          "/data/", "/snaps/20200102T030405Z"]) ∧
    ((FSState.mk (.symlink "p") []).latest = .absent →
      ∃ r, normalizeRoot "/data" = some r ∧
        ["-aPh", "--no-specials", "--no-devices", "--link-dest=/snaps/Latest",
          "/data/", "/snaps/20200102T030405Z"] =
          initialRsyncArguments ++ ([] : List String).map rsyncExcludeFlag ++
          [r, filepathJoin "/snaps" (formatTimestamp ⟨2020, 1, 2, 3, 4, 5⟩)] ∧
        ∀ p, rsyncBaseFlag p ∉
          initialRsyncArguments ++ ([] : List String).map rsyncExcludeFlag) :=
  hardlink_base_flag_iff "/data" "/snaps" [] ⟨2020, 1, 2, 3, 4, 5⟩
    ⟨.symlink "p", []⟩ ⟨false, false, false, false, false, false⟩
    ["-aPh", "--no-specials", "--no-devices", "--link-dest=/snaps/Latest",
      "/data/", "/snaps/20200102T030405Z"] (by decide)

/-- Counterexample to C3 as stated: with Latest a symlink targeting snapshot
A, the built argument list references the link path /snaps/Latest, not the
target's own path /snaps/A, so no flag referencing S's path appears. -/
theorem hardlink_base_flag_counterexample :
    (run "/data" "/snaps" [] ⟨2020, 1, 2, 3, 4, 5⟩ ⟨.symlink "A", []⟩
        ⟨false, false, false, false, false, false⟩).rsyncInvocation =
      some ["-aPh", "--no-specials", "--no-devices", "--link-dest=/snaps/Latest",
        "/data/", "/snaps/20200102T030405Z"] ∧
    rsyncBaseFlag (filepathJoin "/snaps" "A") ∉
      ["-aPh", "--no-specials", "--no-devices", "--link-dest=/snaps/Latest",
        "/data/", "/snaps/20200102T030405Z"] := by
  constructor
  · decide
  · decide

/-- C9: the hardlink-base flag references the Latest link's own path; the
run never reads the link's target, so its observable outcome is independent
of the target, and a dangling target is still accepted and passed to rsync
as the base. -/
theorem base_flag_ignores_target (root snaps : String) (excl : List String)
    (now : DateTime) (dirs : List String) (f : Faults) (t1 t2 : String) :
    ((run root snaps excl now ⟨.symlink t1, dirs⟩ f).rsyncInvocation =
      (run root snaps excl now ⟨.symlink t2, dirs⟩ f).rsyncInvocation ∧
     (run root snaps excl now ⟨.symlink t1, dirs⟩ f).errKind =
      (run root snaps excl now ⟨.symlink t2, dirs⟩ f).errKind ∧
     (run root snaps excl now ⟨.symlink t1, dirs⟩ f).exitCode =
      (run root snaps excl now ⟨.symlink t2, dirs⟩ f).exitCode) ∧
    ∀ args,
      (run root snaps excl now ⟨.symlink t1, dirs⟩ f).rsyncInvocation = some args →
      rsyncBaseFlag (filepathJoin snaps latestSnapshotLinkName) ∈ args := by
  constructor
  · by_cases h1 : root = ""
    · simp [run, h1, abortR]
    by_cases h2 : snaps = ""
    · simp [run, h1, h2, abortR]
    by_cases h3 : f.mkdirAllFails = true
    · simp [run, h1, h2, h3, abortR]
    by_cases h4 : f.lstatOtherError = true
    · simp [run, h1, h2, h3, h4, abortR]
    have hred1 : run root snaps excl now ⟨.symlink t1, dirs⟩ f =
        runAfterInspect root snaps excl now ⟨.symlink t1, dirs⟩ f
          (initialRsyncArguments ++
            [rsyncBaseFlag (filepathJoin snaps latestSnapshotLinkName)]) := by
      simp [run, h1, h2, h3, h4]
    have hred2 : run root snaps excl now ⟨.symlink t2, dirs⟩ f =
        runAfterInspect root snaps excl now ⟨.symlink t2, dirs⟩ f
          (initialRsyncArguments ++
            [rsyncBaseFlag (filepathJoin snaps latestSnapshotLinkName)]) := by
      simp [run, h1, h2, h3, h4]
    rw [hred1, hred2]
    exact runAfterInspect_latest_independent root snaps excl now f _ dirs
      (.symlink t1) (.symlink t2)
  · intro args hinv
    rcases run_abort_or_inspect root snaps excl now ⟨.symlink t1, dirs⟩ f with
      ⟨k, heq, _, _⟩ | ⟨_, a1, heq, hcase⟩
    · rw [heq] at hinv
      simp [abortR] at hinv
    · rw [heq] at hinv
      rcases hcase with ⟨ha1, hlat⟩ | ⟨ha1, t', hlat⟩
      · simp at hlat
      · subst ha1
        obtain ⟨r, hnr, _, _, hargs⟩ :=
          runAfterInspect_invocation_inv root snaps excl now ⟨.symlink t1, dirs⟩ f
            _ args hinv
        rw [hargs]
        simp

/-- Witness for C9 at a concrete run whose Latest link target does not
exist on disk. -/
theorem base_flag_ignores_target_witness :
    rsyncBaseFlag (filepathJoin "/snaps" latestSnapshotLinkName) ∈
      ["-aPh", "--no-specials", "--no-devices", "--link-dest=/snaps/Latest",
        "/data/", "/snaps/20200102T030405Z"] :=
  (base_flag_ignores_target "/data" "/snaps" [] ⟨2020, 1, 2, 3, 4, 5⟩ []
      ⟨false, false, false, false, false, false⟩ "missing-target" "other").2
    ["-aPh", "--no-specials", "--no-devices", "--link-dest=/snaps/Latest",
      "/data/", "/snaps/20200102T030405Z"] (by decide)


/-- C8: the snapshot identifier renders the instant's UTC fields in the
fixed 16-character format YYYYMMDDTHHMMSSZ, so identifiers of later instants
are lexicographically greater and every character is a digit, T, or Z. -/
theorem timestamp_identifier_properties (a b : DateTime)
    (ha : a.Valid) (hb : b.Valid) (hab : a.chronoLT b) :
    formatTimestamp a < formatTimestamp b ∧
    (formatTimestamp a).length = 16 ∧
    (∀ c ∈ (formatTimestamp a).data, c.isDigit = true ∨ c = 'T' ∨ c = 'Z') ∧
    (∀ c ∈ (formatTimestamp b).data, c.isDigit = true ∨ c = 'T' ∨ c = 'Z') :=
  ⟨formatTimestamp_strictMono ha hb hab, formatTimestamp_length a,
    formatTimestamp_chars a, formatTimestamp_chars b⟩

/-- Witness for C8 at two concrete instants. -/
theorem timestamp_identifier_witness :
    formatTimestamp ⟨2020, 1, 2, 3, 4, 5⟩ < formatTimestamp ⟨2021, 6, 7, 8, 9, 10⟩ ∧
    (formatTimestamp ⟨2020, 1, 2, 3, 4, 5⟩).length = 16 ∧
    (∀ c ∈ (formatTimestamp ⟨2020, 1, 2, 3, 4, 5⟩).data,
      c.isDigit = true ∨ c = 'T' ∨ c = 'Z') ∧
    (∀ c ∈ (formatTimestamp ⟨2021, 6, 7, 8, 9, 10⟩).data,
      c.isDigit = true ∨ c = 'T' ∨ c = 'Z') :=
  timestamp_identifier_properties ⟨2020, 1, 2, 3, 4, 5⟩ ⟨2021, 6, 7, 8, 9, 10⟩
    (by decide) (by decide) (by decide)

/-- Witness for C7 at the roots /data and /data/. -/
theorem normalizeRoot_spec_witness :
    (∃ r, normalizeRoot "/data" = some r ∧ r.data.getLast? = some '/' ∧
      ("/data".data.getLast? = some '/' → r = "/data") ∧
      ("/data".data.getLast? ≠ some '/' → r = "/data" ++ "/") ∧
      normalizeRoot r = some r) ∧
    (∃ r, normalizeRoot "/data/" = some r ∧ r.data.getLast? = some '/' ∧
      ("/data/".data.getLast? = some '/' → r = "/data/") ∧
      ("/data/".data.getLast? ≠ some '/' → r = "/data/" ++ "/") ∧
      normalizeRoot r = some r) :=
  ⟨normalizeRoot_spec "/data" (by decide), normalizeRoot_spec "/data/" (by decide)⟩

end Snapper
